import Mathlib

/-!
Verification development for the microkube process-supervision core.

The definitions below are a shallow embedding of the Go sources:
  * pkg/handlers/ServiceHandler.go  (HealthMessage, ExecutionEnvironment)
  * cmd/microkubed/cmd/Microkubed.go (checkService, startService health gate,
    start ordering, the graceful-termination flag, the exit hook, shutdown)
  * pkg/handlers/kube/KubeletHandler.go (the nil-guard in stop)
  * the process handle (CmdHandler), whose implementation is not part of the
    sources here; it is modelled from the specification where needed.
-/

/-- HealthMessage from pkg/handlers/ServiceHandler.go: probe result with an
optional diagnostic. The Go error value is modelled as an optional string. -/
structure HealthMessage where
  IsHealthy : Bool
  Error : Option String
deriving DecidableEq, Repr

/-- ExecutionEnvironment from pkg/handlers/ServiceHandler.go. Addresses
(net.IP) are modelled as strings; the two callback fields are modelled as
opaque identifiers (only their identity matters for the frame property). -/
structure ExecutionEnvironment where
  Binary : String
  SudoMethod : String
  Workdir : String
  ListenAddress : String
  ServiceAddress : String
  DNSAddress : String
  OutputHandler : Nat
  ExitHandler : Nat
  EtcdClientPort : Int
  EtcdPeerPort : Int
  KubeApiPort : Int
  KubeNodeApiPort : Int
  KubeControllerManagerPort : Int
  KubeletHealthPort : Int
  KubeProxyHealthPort : Int
  KubeProxyMetricsPort : Int
  KubeSchedulerHealthPort : Int
  KubeSchedulerMetricsPort : Int
deriving DecidableEq, Repr

/-- CopyInformationFromBase from pkg/handlers/ServiceHandler.go lines 107 to
124: field-by-field assignment of the ten ports, the three addresses and the
sudo method from the base environment. -/
def ExecutionEnvironment.CopyInformationFromBase (e o : ExecutionEnvironment) :
    ExecutionEnvironment :=
  { e with
    EtcdClientPort := o.EtcdClientPort
    EtcdPeerPort := o.EtcdPeerPort
    KubeApiPort := o.KubeApiPort
    KubeNodeApiPort := o.KubeNodeApiPort
    KubeControllerManagerPort := o.KubeControllerManagerPort
    KubeletHealthPort := o.KubeletHealthPort
    KubeProxyHealthPort := o.KubeProxyHealthPort
    KubeProxyMetricsPort := o.KubeProxyMetricsPort
    KubeSchedulerHealthPort := o.KubeSchedulerHealthPort
    KubeSchedulerMetricsPort := o.KubeSchedulerMetricsPort
    ListenAddress := o.ListenAddress
    ServiceAddress := o.ServiceAddress
    DNSAddress := o.DNSAddress
    SudoMethod := o.SudoMethod }

/-- Phases of the graceful-termination state machine of the specification. -/
inductive Phase where
  | Starting
  | Running
  | Draining
  | Stopped
deriving DecidableEq, Repr

/-- Value of the field Microkubed.gracefulTerminationMode in each phase,
from the source: Run sets it to false before startup (Microkubed.go line 514)
and waitUntilNodeReady sets it to true right after WaitForNode returns
(line 399), that is at the Starting to Running transition, before
enableHealthChecks starts the monitors; it is never reset afterwards. -/
def gracefulTerminationMode : Phase → Bool
  | Phase.Starting => false
  | Phase.Running => true
  | Phase.Draining => true
  | Phase.Stopped => true

/-- One event consumed by the select in Microkubed.checkService: either a
value received on the exit channel or a health message. -/
inductive ServiceEvent where
  | exitEvent : Bool → ServiceEvent
  | healthEvent : HealthMessage → ServiceEvent
deriving DecidableEq, Repr

/-- Outcome of one checkService loop iteration: either continue with a new
consecutive-failure counter, or log.Fatal with the given message. -/
inductive StepResult where
  | next : Nat → StepResult
  | fatalMsg : String → StepResult
deriving DecidableEq, Repr

/-- One iteration of Microkubed.checkService (Microkubed.go lines 338 to 365):
an exit-channel event is fatal only when gracefulTerminationMode is unset;
an unhealthy message increments the counter and is fatal when the counter
reaches 10; a healthy message resets the counter to zero. -/
def checkServiceStep (graceful : Bool) (name : String) (unhealthyCount : Nat) :
    ServiceEvent → StepResult
  | ServiceEvent.exitEvent _ =>
    if !graceful then
      StepResult.fatalMsg ("Service " ++ name ++ " exitted, aborting!")
    else
      StepResult.next unhealthyCount
  | ServiceEvent.healthEvent msg =>
    if !msg.IsHealthy then
      if unhealthyCount + 1 = 10 then
        StepResult.fatalMsg "Too many failed health checks, aborting!"
      else
        StepResult.next (unhealthyCount + 1)
    else
      StepResult.next 0

/-- Folding checkService over a finite list of delivered events, stopping at
the first fatal outcome. -/
def checkServiceRun (graceful : Bool) (name : String) :
    Nat → List ServiceEvent → Except String Nat
  | c, [] => Except.ok c
  | c, ev :: rest =>
    match checkServiceStep graceful name c ev with
    | StepResult.next c2 => checkServiceRun graceful name c2 rest
    | StepResult.fatalMsg m => Except.error m

/-- Observable actions of the startup health gate loop in
Microkubed.startService: a sleep of a fixed number of seconds, or a single
probe (EnableHealthChecks with forever set to false), tagged by the value of
the retries counter. -/
inductive GateAction where
  | sleepSec : Nat → GateAction
  | probeOnce : Nat → GateAction
deriving DecidableEq, Repr

/-- The startup health gate loop of Microkubed.startService (Microkubed.go
lines 604 to 615): for retries from 0 while retries is less than 8 and the
last message is unhealthy, sleep one second, probe once, receive the result.
The fuel argument equals 8 minus retries, making the recursion structural.
The probe oracle gives the result of the probe issued with a given retries
value. Returns the action trace and the last received message. -/
def healthGateAux (probe : Nat → HealthMessage) :
    Nat → Nat → HealthMessage → List GateAction × HealthMessage
  | 0, _, msg => ([], msg)
  | n + 1, retries, msg =>
    if msg.IsHealthy then
      ([], msg)
    else
      let m2 := probe retries
      let rest := healthGateAux probe n (retries + 1) m2
      (GateAction.sleepSec 1 :: GateAction.probeOnce retries :: rest.1, rest.2)

/-- The whole startup health gate: loop entered with retries 0 and an
initial message constructed unhealthy (Microkubed.go lines 604 to 606). -/
def startupHealthGate (probe : Nat → HealthMessage) :
    List GateAction × HealthMessage :=
  healthGateAux probe 8 0 { IsHealthy := false, Error := none }

/-- After the gate loop, startService calls log.Fatal iff the last message is
still unhealthy (Microkubed.go lines 616 to 618). -/
def startServiceGateFatal (probe : Nat → HealthMessage) : Bool :=
  !(startupHealthGate probe).2.IsHealthy

/-- Result of startService for a given service name: the gate trace on normal
return, or the fatal diagnostic when the retry budget is exhausted while
unhealthy (startService then never returns normally). -/
def startServiceResult (name : String) (probe : Nat → HealthMessage) :
    Except String (List GateAction) :=
  let r := startupHealthGate probe
  if r.2.IsHealthy then
    Except.ok r.1
  else
    Except.error (name ++ " didn\x27t become healthy in time!")

/-- The expected trace of n gate rounds starting at a given retries value:
each round is a one-second sleep followed by a single probe. -/
def gateRoundsFrom : Nat → Nat → List GateAction
  | _, 0 => []
  | r, n + 1 =>
    GateAction.sleepSec 1 :: GateAction.probeOnce r :: gateRoundsFrom (r + 1) n

/-- The expected trace of n gate rounds from retries 0. -/
def gateRounds (n : Nat) : List GateAction :=
  gateRoundsFrom 0 n

/-- Number of probe attempts in a gate trace. -/
def countProbes : List GateAction → Nat
  | [] => 0
  | GateAction.probeOnce _ :: rest => countProbes rest + 1
  | GateAction.sleepSec _ :: rest => countProbes rest

/-- The six managed services of microkubed. -/
inductive Service where
  | etcd
  | kubeApiserver
  | kubeControllerManager
  | kubeScheduler
  | kubelet
  | kubeProxy
deriving DecidableEq, Repr

/-- The fixed startup order of Microkubed.start (Microkubed.go lines 561 to
566): etcd, API server, controller manager, scheduler, kubelet, kube-proxy. -/
def startOrder : List Service :=
  [Service.etcd, Service.kubeApiserver, Service.kubeControllerManager,
   Service.kubeScheduler, Service.kubelet, Service.kubeProxy]

/-- Sequential start loop: each service in the list is started and its
blocking health gate must report healthy before the next service starts; a
gate failure is fatal (log.Fatal) and ends the run. Returns the list of
services that were started and the service at which the fatal occurred, if
any. -/
def startSeq (gateOk : Service → Bool) : List Service → List Service × Option Service
  | [] => ([], none)
  | s :: rest =>
    if gateOk s then
      let r := startSeq gateOk rest
      (s :: r.1, r.2)
    else
      ([s], some s)

/-- Microkubed.start over the fixed order, with each service gated by its own
startup health gate (probe oracle per service). -/
def startAllServices (probes : Service → Nat → HealthMessage) :
    List Service × Option Service :=
  startSeq (fun t => (startupHealthGate (probes t)).2.IsHealthy) startOrder

/-- Observable actions of the shutdown path. -/
inductive ShutdownAction where
  | drainNode
  | notifyStopping
  | stopHandler : Service → ShutdownAction
  | sleepSec : Nat → ShutdownAction
  | runReturns
deriving DecidableEq, Repr

/-- Body of the signal goroutine installed in waitUntilNodeReady
(Microkubed.go lines 388 to 393): on a signal it drains the node and only
then sends on the exit channel. -/
def signalHandlerActions : List ShutdownAction :=
  [ShutdownAction.drainNode]

/-- Tail of Microkubed.Run after the receive on the exit channel
(Microkubed.go lines 537 to 547): notify stopping, call Stop on every
registered service handler in order, sleep seven seconds, return. -/
def runShutdownTail (hs : List Service) : List ShutdownAction :=
  ShutdownAction.notifyStopping ::
    (hs.map ShutdownAction.stopHandler ++
      [ShutdownAction.sleepSec 7, ShutdownAction.runReturns])

/-- The full shutdown sequence on a signal received after the node is ready:
Run blocks on the exit channel, which is sent only after DrainNode returns,
so the signal goroutine actions strictly precede the Run tail. -/
def shutdownSequence (hs : List Service) : List ShutdownAction :=
  signalHandlerActions ++ runShutdownTail hs

/-- How a started process terminated: with an exit code, or killed by Stop. -/
inductive TerminationCause where
  | exited : Int → TerminationCause
  | killedByStop : TerminationCause
deriving DecidableEq, Repr

/-- Observable outcome of one CmdHandler lifecycle: the synchronous Start
error if any, the number of background tasks started, and the successive
exit-callback invocations (each carrying its success flag). -/
structure StartOutcome where
  startError : Option String
  backgroundTasks : Nat
  exitCallbackInvocations : List Bool
deriving DecidableEq, Repr

/-- Modelled from the spec: the process handle (CmdHandler of pkg/helpers),
whose implementation is not among the sources here (only its tests are).
Per spec section 4.1: Start fails synchronously with no background task when
the binary cannot be located or executed, and the exit callback never fires;
on success it starts the asynchronous tasks (stdout capture, stderr capture,
exit wait, spec section 5) and on termination for any reason the exit
callback is invoked exactly once, with success iff the exit code was 0
(a kill by Stop is signal-induced termination, hence failure). -/
def cmdHandlerRun (binaryExecutable : Bool) (cause : TerminationCause) :
    StartOutcome :=
  if binaryExecutable then
    { startError := none
      backgroundTasks := 3
      exitCallbackInvocations :=
        [match cause with
         | TerminationCause.exited code => code == 0
         | TerminationCause.killedByStop => false] }
  else
    { startError := some "file not found or not executable"
      backgroundTasks := 0
      exitCallbackInvocations := [] }

/-- State of the managed process of a service handler. -/
inductive ProcState where
  | notStarted
  | running
  | stopped
deriving DecidableEq, Repr

/-- Modelled from the spec: Stop of the process handle (CmdHandler of
pkg/helpers, implementation not among the sources here). Per spec sections 3
and 4.1: Stop on a never-started or already-stopped handle is a no-op with no
double-signal; Stop on a running process kills it, after which the exit
callback fires exactly once with success false. Returns the new state and
the exit-callback invocations this call gives rise to. -/
def stopProcess : ProcState → ProcState × List Bool
  | ProcState.notStarted => (ProcState.notStarted, [])
  | ProcState.running => (ProcState.stopped, [false])
  | ProcState.stopped => (ProcState.stopped, [])

/-- KubeletHandler.stop from pkg/handlers/kube/KubeletHandler.go lines 92 to
96: delegate to cmd.Stop only when cmd is not nil (nil meaning the service
was never started). -/
def kubeletStop : Option ProcState → Option ProcState × List Bool
  | none => (none, [])
  | some st =>
    let r := stopProcess st
    (some r.1, r.2)

/-- The fatal conditions of the orchestrator, each carrying the name of the
failing service: handler construction failure and launch failure
(Microkubed.go lines 595 to 602), startup health-gate exhaustion (lines 616
to 618), unexpected exit during the startup phase (lines 586 to 591), and
the steady-state consecutive-failure threshold (lines 353 to 358). -/
inductive FatalCondition where
  | constructorFailure : String → FatalCondition
  | launchFailure : String → FatalCondition
  | healthGateExhaustion : String → FatalCondition
  | startupUnexpectedExit : String → FatalCondition
  | steadyStateThreshold : String → FatalCondition
deriving DecidableEq, Repr

/-- The failing service named by a fatal condition. -/
def fatalServiceName : FatalCondition → String
  | FatalCondition.constructorFailure n => n
  | FatalCondition.launchFailure n => n
  | FatalCondition.healthGateExhaustion n => n
  | FatalCondition.startupUnexpectedExit n => n
  | FatalCondition.steadyStateThreshold n => n

/-- The diagnostic logged by each fatal call site, as the list of segments
the source concatenates; a WithFields app entry is modelled as the two
segments "app: " and the name. -/
def fatalDiagnostic : FatalCondition → List String
  | FatalCondition.constructorFailure n => ["Couldn\x27t create ", n, " handler"]
  | FatalCondition.launchFailure n => ["Couldn\x27t start ", n]
  | FatalCondition.healthGateExhaustion n => [n, " didn\x27t become healthy in time!"]
  | FatalCondition.startupUnexpectedExit n =>
    ["app: ", n, "App exitted during startup phase, bailing out _now_"]
  | FatalCondition.steadyStateThreshold n =>
    ["app: ", n, "Too many failed health checks, aborting!"]

/-- Value of gracefulTerminationMode when each fatal condition can fire:
construction, launch, gate and startup-exit fatals occur inside
Microkubed.start, before waitUntilNodeReady sets the flag; the steady-state
threshold fatal occurs in checkService, whose monitor goroutines are only
started by enableHealthChecks after waitUntilNodeReady set the flag. -/
def gracefulAtFatal : FatalCondition → Bool
  | FatalCondition.steadyStateThreshold _ => true
  | _ => false

/-- The exit hook registered in Microkubed.Run (Microkubed.go lines 515 to
523): when a fatal fires it calls Stop on every service handler registered so
far, but only when gracefulTerminationMode is unset; otherwise it stops
nothing. Returns the list of handlers that get Stop called. -/
def exitHookStops (graceful : Bool) (registered : List Service) : List Service :=
  if graceful then [] else registered

/-! Helper lemmas about the health gate loop. -/

theorem healthGateAux_of_healthy (probe : Nat → HealthMessage) (fuel r : Nat)
    (msg : HealthMessage) (h : msg.IsHealthy = true) :
    healthGateAux probe fuel r msg = ([], msg) := by
  cases fuel <;> simp [healthGateAux, h]

theorem healthGateAux_all_unhealthy (probe : Nat → HealthMessage) :
    ∀ fuel r (msg : HealthMessage), msg.IsHealthy = false →
      (∀ i, i < fuel → (probe (r + i)).IsHealthy = false) →
      (healthGateAux probe fuel r msg).1 = gateRoundsFrom r fuel ∧
        (healthGateAux probe fuel r msg).2.IsHealthy = false := by
  intro fuel
  induction fuel with
  | zero =>
    intro r msg hm _
    simp [healthGateAux, gateRoundsFrom, hm]
  | succ n ih =>
    intro r msg hm hall
    have h0 : (probe r).IsHealthy = false := by
      have := hall 0 (Nat.succ_pos n)
      simpa using this
    have hrest := ih (r + 1) (probe r) h0
      (by
        intro i hi
        have := hall (i + 1) (Nat.succ_lt_succ hi)
        have harith : r + (i + 1) = r + 1 + i := by omega
        rw [harith] at this
        exact this)
    simp only [healthGateAux, hm, Bool.false_eq_true, if_false]
    constructor
    · simp [gateRoundsFrom, hrest.1]
    · exact hrest.2

theorem healthGateAux_first_healthy (probe : Nat → HealthMessage) :
    ∀ k fuel r (msg : HealthMessage), msg.IsHealthy = false → k < fuel →
      (∀ i, i < k → (probe (r + i)).IsHealthy = false) →
      (probe (r + k)).IsHealthy = true →
      healthGateAux probe fuel r msg = (gateRoundsFrom r (k + 1), probe (r + k)) := by
  intro k
  induction k with
  | zero =>
    intro fuel r msg hm hk _ hp
    cases fuel with
    | zero => omega
    | succ n =>
      have hp0 : (probe r).IsHealthy = true := by simpa using hp
      simp only [healthGateAux, hm, Bool.false_eq_true, if_false]
      rw [healthGateAux_of_healthy probe n (r + 1) (probe r) hp0]
      simp [gateRoundsFrom]
  | succ k ih =>
    intro fuel r msg hm hk hall hp
    cases fuel with
    | zero => omega
    | succ n =>
      have h0 : (probe r).IsHealthy = false := by
        have := hall 0 (Nat.succ_pos k)
        simpa using this
      have hp2 : (probe (r + 1 + k)).IsHealthy = true := by
        have harith : r + (k + 1) = r + 1 + k := by omega
        rw [harith] at hp
        exact hp
      have hrest := ih n (r + 1) (probe r) h0 (by omega)
        (by
          intro i hi
          have := hall (i + 1) (Nat.succ_lt_succ hi)
          have harith : r + (i + 1) = r + 1 + i := by omega
          rw [harith] at this
          exact this)
        hp2
      simp only [healthGateAux, hm, Bool.false_eq_true, if_false]
      rw [hrest]
      have harith : r + (k + 1) = r + 1 + k := by omega
      rw [harith]
      simp [gateRoundsFrom]

theorem countProbes_gateRoundsFrom : ∀ n r, countProbes (gateRoundsFrom r n) = n := by
  intro n
  induction n with
  | zero => intro r; simp [gateRoundsFrom, countProbes]
  | succ k ih => intro r; simp [gateRoundsFrom, countProbes, ih]

theorem healthGateAux_shape (probe : Nat → HealthMessage) :
    ∀ fuel r msg, ∃ n, n ≤ fuel ∧
      (healthGateAux probe fuel r msg).1 = gateRoundsFrom r n := by
  intro fuel
  induction fuel with
  | zero =>
    intro r msg
    exact ⟨0, Nat.le_refl 0, by simp [healthGateAux, gateRoundsFrom]⟩
  | succ n ih =>
    intro r msg
    by_cases h : msg.IsHealthy = true
    · exact ⟨0, Nat.zero_le _, by simp [healthGateAux, h, gateRoundsFrom]⟩
    · have hm : msg.IsHealthy = false := by
        cases hmm : msg.IsHealthy
        · rfl
        · exact absurd hmm h
      obtain ⟨m, hm1, hm2⟩ := ih (r + 1) (probe r)
      refine ⟨m + 1, Nat.succ_le_succ hm1, ?_⟩
      simp only [healthGateAux, hm, Bool.false_eq_true, if_false]
      simp [gateRoundsFrom, hm2]

/-! Claim theorems. -/

/-- Claim C10: for every pair of ExecutionEnvironment values e and o,
e.CopyInformationFromBase o sets exactly the ten port fields, the three
address fields and SudoMethod of e to o values, and leaves the Binary,
Workdir, OutputHandler and ExitHandler fields of e unchanged (these 18
fields are all the fields of the structure). -/
theorem copyInformationFromBase_frame (e o : ExecutionEnvironment) :
    (e.CopyInformationFromBase o).EtcdClientPort = o.EtcdClientPort ∧
    (e.CopyInformationFromBase o).EtcdPeerPort = o.EtcdPeerPort ∧
    (e.CopyInformationFromBase o).KubeApiPort = o.KubeApiPort ∧
    (e.CopyInformationFromBase o).KubeNodeApiPort = o.KubeNodeApiPort ∧
    (e.CopyInformationFromBase o).KubeControllerManagerPort = o.KubeControllerManagerPort ∧
    (e.CopyInformationFromBase o).KubeletHealthPort = o.KubeletHealthPort ∧
    (e.CopyInformationFromBase o).KubeProxyHealthPort = o.KubeProxyHealthPort ∧
    (e.CopyInformationFromBase o).KubeProxyMetricsPort = o.KubeProxyMetricsPort ∧
    (e.CopyInformationFromBase o).KubeSchedulerHealthPort = o.KubeSchedulerHealthPort ∧
    (e.CopyInformationFromBase o).KubeSchedulerMetricsPort = o.KubeSchedulerMetricsPort ∧
    (e.CopyInformationFromBase o).ListenAddress = o.ListenAddress ∧
    (e.CopyInformationFromBase o).ServiceAddress = o.ServiceAddress ∧
    (e.CopyInformationFromBase o).DNSAddress = o.DNSAddress ∧
    (e.CopyInformationFromBase o).SudoMethod = o.SudoMethod ∧
    (e.CopyInformationFromBase o).Binary = e.Binary ∧
    (e.CopyInformationFromBase o).Workdir = e.Workdir ∧
    (e.CopyInformationFromBase o).OutputHandler = e.OutputHandler ∧
    (e.CopyInformationFromBase o).ExitHandler = e.ExitHandler := by
  refine ⟨rfl, rfl, rfl, rfl, rfl, rfl, rfl, rfl, rfl, rfl, rfl, rfl, rfl, rfl,
    rfl, rfl, rfl, rfl⟩

/-- Claim C1, counterexample: in the Running phase the
gracefulTerminationMode flag is already set (it is set when the node reports
ready, at the Starting to Running transition), so an exit event delivered to
checkService while the Orchestrator is in the Running state is absorbed and
does not trigger the fatal abort the claim requires. -/
theorem checkService_exit_running_not_fatal :
    gracefulTerminationMode Phase.Running = true ∧
    checkServiceStep (gracefulTerminationMode Phase.Running) "etcd" 0
        (ServiceEvent.exitEvent true) = StepResult.next 0 ∧
    checkServiceStep (gracefulTerminationMode Phase.Running) "etcd" 0
        (ServiceEvent.exitEvent true) ≠
      StepResult.fatalMsg "Service etcd exitted, aborting!" := by
  refine ⟨rfl, rfl, ?_⟩
  decide

/-- Claim C1, amended: an exit event on the exit channel is fatal in
checkService exactly while gracefulTerminationMode is unset, which is only
the case in the Starting phase; once the node is ready the flag is set (at
the Starting to Running transition, before the monitors start), so an exit
event in Running, Draining or Stopped is absorbed without aborting and
without touching the failure counter. -/
theorem checkService_exit_fatal_iff_starting (p : Phase) (name : String)
    (c : Nat) (s : Bool) :
    (gracefulTerminationMode p = false ↔ p = Phase.Starting) ∧
    (p = Phase.Starting →
      checkServiceStep (gracefulTerminationMode p) name c (ServiceEvent.exitEvent s) =
        StepResult.fatalMsg ("Service " ++ name ++ " exitted, aborting!")) ∧
    (p ≠ Phase.Starting →
      checkServiceStep (gracefulTerminationMode p) name c (ServiceEvent.exitEvent s) =
        StepResult.next c) := by
  refine ⟨?_, ?_, ?_⟩
  · cases p <;> simp [gracefulTerminationMode]
  · intro h
    subst h
    simp [gracefulTerminationMode, checkServiceStep]
  · intro h
    cases p with
    | Starting => exact absurd rfl h
    | Running => simp [gracefulTerminationMode, checkServiceStep]
    | Draining => simp [gracefulTerminationMode, checkServiceStep]
    | Stopped => simp [gracefulTerminationMode, checkServiceStep]

/-- Claim C1, witness for the amended theorem at concrete inputs. -/
theorem checkService_exit_fatal_iff_starting_witness :
    checkServiceStep (gracefulTerminationMode Phase.Draining) "kubelet" 3
        (ServiceEvent.exitEvent false) = StepResult.next 3 ∧
    checkServiceStep (gracefulTerminationMode Phase.Starting) "kube-apiserver" 0
        (ServiceEvent.exitEvent true) =
      StepResult.fatalMsg "Service kube-apiserver exitted, aborting!" := by
  constructor
  · exact (checkService_exit_fatal_iff_starting Phase.Draining "kubelet" 3
      false).2.2 (by decide)
  · exact (checkService_exit_fatal_iff_starting Phase.Starting "kube-apiserver" 0
      true).2.1 rfl

/-- Claim C2: in checkService, each unhealthy message increments the
consecutive-failure counter and each healthy message resets it to zero; from
a zero counter, a run of 9 consecutive unhealthy messages does not abort
(the counter ends at 9), while the 10th consecutive unhealthy message makes
the counter reach 10 and triggers the fatal abort. -/
theorem checkService_failure_counter (g : Bool) (name : String) (c : Nat)
    (eo : Option String) :
    (c + 1 ≠ 10 →
      checkServiceStep g name c
          (ServiceEvent.healthEvent { IsHealthy := false, Error := eo }) =
        StepResult.next (c + 1)) ∧
    (c + 1 = 10 →
      checkServiceStep g name c
          (ServiceEvent.healthEvent { IsHealthy := false, Error := eo }) =
        StepResult.fatalMsg "Too many failed health checks, aborting!") ∧
    (checkServiceStep g name c
        (ServiceEvent.healthEvent { IsHealthy := true, Error := eo }) =
      StepResult.next 0) ∧
    (checkServiceRun g name 0
        (List.replicate 9
          (ServiceEvent.healthEvent { IsHealthy := false, Error := eo })) =
      Except.ok 9) ∧
    (checkServiceRun g name 0
        (List.replicate 10
          (ServiceEvent.healthEvent { IsHealthy := false, Error := eo })) =
      Except.error "Too many failed health checks, aborting!") := by
  refine ⟨?_, ?_, ?_, ?_, ?_⟩
  · intro h
    simp [checkServiceStep, h]
  · intro h
    simp [checkServiceStep, h]
  · simp [checkServiceStep]
  · rfl
  · rfl

/-- Claim C2, witness at concrete inputs, discharging the counter-value
hypotheses. -/
theorem checkService_failure_counter_witness :
    checkServiceStep true "etcd" 0
        (ServiceEvent.healthEvent { IsHealthy := false, Error := none }) =
      StepResult.next 1 ∧
    checkServiceStep true "etcd" 9
        (ServiceEvent.healthEvent { IsHealthy := false, Error := none }) =
      StepResult.fatalMsg "Too many failed health checks, aborting!" ∧
    checkServiceRun true "etcd" 0
        (List.replicate 9
          (ServiceEvent.healthEvent { IsHealthy := false, Error := none })) =
      Except.ok 9 := by
  refine ⟨?_, ?_, ?_⟩
  · exact (checkService_failure_counter true "etcd" 0 none).1 (by decide)
  · exact (checkService_failure_counter true "etcd" 9 none).2.1 rfl
  · exact (checkService_failure_counter true "etcd" 0 none).2.2.2.1

/-- Claim C3: the startup health gate of startService performs at most 8
probe attempts; its trace consists of n rounds, each a one-second sleep
followed by a single probe, for some n at most 8; it stops retrying at the
first healthy result (if the first k probes are unhealthy and probe k is
healthy with k below 8, exactly k plus 1 rounds run and startService returns
normally); and if all 8 probes in the retry budget are unhealthy, the gate
runs all 8 rounds and startService ends in the fatal diagnostic instead of
returning normally. -/
theorem startService_health_gate (name : String) (probe : Nat → HealthMessage) :
    countProbes (startupHealthGate probe).1 ≤ 8 ∧
    (∃ n, n ≤ 8 ∧ (startupHealthGate probe).1 = gateRounds n) ∧
    (∀ k, k < 8 → (∀ i, i < k → (probe i).IsHealthy = false) →
      (probe k).IsHealthy = true →
      startupHealthGate probe = (gateRounds (k + 1), probe k) ∧
        startServiceResult name probe = Except.ok (gateRounds (k + 1))) ∧
    ((∀ i, i < 8 → (probe i).IsHealthy = false) →
      (startupHealthGate probe).1 = gateRounds 8 ∧
        startServiceResult name probe =
          Except.error (name ++ " didn\x27t become healthy in time!")) := by
  refine ⟨?_, ?_, ?_, ?_⟩
  · obtain ⟨n, hn, hshape⟩ := healthGateAux_shape probe 8 0
      { IsHealthy := false, Error := none }
    have : countProbes (startupHealthGate probe).1 = n := by
      rw [startupHealthGate, hshape, countProbes_gateRoundsFrom]
    omega
  · obtain ⟨n, hn, hshape⟩ := healthGateAux_shape probe 8 0
      { IsHealthy := false, Error := none }
    exact ⟨n, hn, hshape⟩
  · intro k hk hall hp
    have h := healthGateAux_first_healthy probe k 8 0
      { IsHealthy := false, Error := none } rfl hk
      (by intro i hi; simpa using hall i hi) (by simpa using hp)
    have hgate : startupHealthGate probe = (gateRounds (k + 1), probe k) := by
      rw [startupHealthGate, h]
      simp [gateRounds]
    refine ⟨hgate, ?_⟩
    rw [startServiceResult, hgate]
    simp [hp]
  · intro hall
    have h := healthGateAux_all_unhealthy probe 8 0
      { IsHealthy := false, Error := none } rfl
      (by intro i hi; simpa using hall i hi)
    have hgate1 : (startupHealthGate probe).1 = gateRounds 8 := by
      rw [startupHealthGate, h.1]; rfl
    have hgate2 : (startupHealthGate probe).2.IsHealthy = false := h.2
    refine ⟨hgate1, ?_⟩
    rw [startServiceResult]
    simp [hgate2]

/-- Claim C3, witness: with a probe that turns healthy at the third attempt
the gate runs exactly 3 rounds and returns normally; with a probe that never
turns healthy startService ends in the fatal diagnostic. -/
theorem startService_health_gate_witness :
    startupHealthGate (fun i => { IsHealthy := decide (i = 2), Error := none }) =
      (gateRounds 3, { IsHealthy := true, Error := none }) ∧
    startServiceResult "etcd" (fun _ => { IsHealthy := false, Error := none }) =
      Except.error "etcd didn\x27t become healthy in time!" := by
  constructor
  · exact (startService_health_gate "etcd"
      (fun i => { IsHealthy := decide (i = 2), Error := none })).2.2.1 2
      (by decide) (by decide) (by decide) |>.1
  · exact ((startService_health_gate "etcd"
      (fun _ => { IsHealthy := false, Error := none })).2.2.2
      (by intro i _; rfl)).2

/-- Helper: when every service in the list passes its gate, the start loop
starts them all, in order, with no fatal. -/
theorem startSeq_all_ok (gateOk : Service → Bool) :
    ∀ l : List Service, (∀ t, t ∈ l → gateOk t = true) →
      startSeq gateOk l = (l, none) := by
  intro l
  induction l with
  | nil => intro _; rfl
  | cons s rest ih =>
    intro h
    have hs : gateOk s = true := h s (List.mem_cons_self s rest)
    have hrest := ih (fun t ht => h t (List.mem_cons_of_mem s ht))
    simp [startSeq, hs, hrest]

/-- Helper: when every service before s passes its gate and s fails, the
start loop starts exactly the services up to and including s and reports the
fatal at s. -/
theorem startSeq_fails_at (gateOk : Service → Bool) (s : Service)
    (l2 : List Service) :
    ∀ l1 : List Service, (∀ t, t ∈ l1 → gateOk t = true) → gateOk s = false →
      startSeq gateOk (l1 ++ s :: l2) = (l1 ++ [s], some s) := by
  intro l1
  induction l1 with
  | nil =>
    intro _ hs
    simp [startSeq, hs]
  | cons a rest ih =>
    intro h hs
    have ha : gateOk a = true := h a (List.mem_cons_self a rest)
    have hrest := ih (fun t ht => h t (List.mem_cons_of_mem a ht)) hs
    simp [startSeq, ha, hrest]

/-- Claim C5: services start in the fixed order etcd, API server, controller
manager, scheduler, kubelet, kube-proxy, with the blocking startup health
gate between stages: when every gate reports healthy all six start in that
order with no fatal, and when the gate of a service s fails (all services
before it having passed), exactly the services up to and including s were
started, the fatal names s, and no service after s in the order is ever
started. -/
theorem start_fixed_order (probes : Service → Nat → HealthMessage)
    (l1 l2 : List Service) (s : Service) :
    startOrder = [Service.etcd, Service.kubeApiserver,
      Service.kubeControllerManager, Service.kubeScheduler, Service.kubelet,
      Service.kubeProxy] ∧
    ((∀ t, t ∈ startOrder → startServiceGateFatal (probes t) = false) →
      startAllServices probes = (startOrder, none)) ∧
    (startOrder = l1 ++ s :: l2 →
      (∀ t, t ∈ l1 → startServiceGateFatal (probes t) = false) →
      startServiceGateFatal (probes s) = true →
      startAllServices probes = (l1 ++ [s], some s) ∧
        ∀ t, t ∈ l2 → t ∉ l1 ++ [s]) := by
  refine ⟨rfl, ?_, ?_⟩
  · intro h
    apply startSeq_all_ok
    intro t ht
    have := h t ht
    simpa [startServiceGateFatal] using this
  · intro heq h1 hs
    constructor
    · rw [startAllServices, heq]
      apply startSeq_fails_at
      · intro t ht
        have := h1 t ht
        simpa [startServiceGateFatal] using this
      · simpa [startServiceGateFatal] using hs
    · intro t ht
      have nd : startOrder.Nodup := by decide
      rw [heq] at nd
      rw [List.nodup_append] at nd
      obtain ⟨nd1, nd2, disj⟩ := nd
      rw [List.nodup_cons] at nd2
      intro hmem
      rw [List.mem_append] at hmem
      cases hmem with
      | inl hin1 =>
        exact disj hin1 (List.mem_cons_of_mem s ht)
      | inr hin2 =>
        rw [List.mem_singleton] at hin2
        subst hin2
        exact nd2.1 ht

/-- Claim C5, witness: with all gates healthy, all six services start in
order with no fatal; with an always-unhealthy etcd gate, only etcd is
started, the fatal names etcd, and the five later services are never
started. -/
theorem start_fixed_order_witness :
    startAllServices (fun _ _ => { IsHealthy := true, Error := none }) =
      (startOrder, none) ∧
    startAllServices
        (fun t _ => { IsHealthy := decide (t ≠ Service.etcd), Error := none }) =
      ([Service.etcd], some Service.etcd) ∧
    Service.kubeApiserver ∉ [Service.etcd] := by
  refine ⟨?_, ?_, by decide⟩
  · exact (start_fixed_order (fun _ _ => { IsHealthy := true, Error := none })
      [] [] Service.etcd).2.1 (by decide)
  · exact ((start_fixed_order
      (fun t _ => { IsHealthy := decide (t ≠ Service.etcd), Error := none })
      [] [Service.kubeApiserver, Service.kubeControllerManager,
        Service.kubeScheduler, Service.kubelet, Service.kubeProxy]
      Service.etcd).2.2 rfl (by decide) (by decide)).1

/-- Claim C9: on an interrupt or termination signal received after the node
is ready, the shutdown sequence is, in order: drain the node, notify
stopping, send Stop to every managed service handler, and wait the fixed
7-second grace period before Run returns; every handler is stopped and the
sequence ends with the grace sleep followed by the return, with no step
skipped. -/
theorem shutdown_sequence_complete (hs : List Service) :
    shutdownSequence hs =
      ShutdownAction.drainNode :: ShutdownAction.notifyStopping ::
        (hs.map ShutdownAction.stopHandler ++
          [ShutdownAction.sleepSec 7, ShutdownAction.runReturns]) ∧
    (∀ h, h ∈ hs → ShutdownAction.stopHandler h ∈ shutdownSequence hs) ∧
    ShutdownAction.drainNode ∈ shutdownSequence hs ∧
    (∃ pre, shutdownSequence hs =
      pre ++ [ShutdownAction.sleepSec 7, ShutdownAction.runReturns]) := by
  refine ⟨rfl, ?_, ?_, ?_⟩
  · intro h hmem
    simp [shutdownSequence, signalHandlerActions, runShutdownTail]
    exact hmem
  · simp [shutdownSequence, signalHandlerActions]
  · exact ⟨ShutdownAction.drainNode :: ShutdownAction.notifyStopping ::
      hs.map ShutdownAction.stopHandler, by
        simp [shutdownSequence, signalHandlerActions, runShutdownTail]⟩

/-- Claim C9, witness: with the six services registered, each of them gets a
Stop in the shutdown sequence. -/
theorem shutdown_sequence_complete_witness :
    ShutdownAction.stopHandler Service.kubelet ∈ shutdownSequence startOrder :=
  (shutdown_sequence_complete startOrder).2.1 Service.kubelet (by decide)

/-- Claim C6: for every started process handle, on termination for any
reason (normal exit, failing exit code, or a kill by Stop) the exit callback
is invoked exactly once, and with success true if and only if the process
exit code was 0. -/
theorem exit_callback_exactly_once (cause : TerminationCause) :
    (cmdHandlerRun true cause).exitCallbackInvocations.length = 1 ∧
    ((cmdHandlerRun true cause).exitCallbackInvocations = [true] ↔
      cause = TerminationCause.exited 0) := by
  cases cause with
  | exited code =>
    refine ⟨rfl, ?_⟩
    constructor
    · intro h
      simp [cmdHandlerRun] at h
      simp [h]
    · intro h
      simp at h
      simp [cmdHandlerRun, h]
  | killedByStop =>
    exact ⟨rfl, by simp [cmdHandlerRun]⟩

/-- Claim C7: when the binary cannot be located or executed, Start returns
an error synchronously, starts no background task, and the exit callback
never fires. -/
theorem start_missing_binary_no_callback (cause : TerminationCause) :
    (cmdHandlerRun false cause).startError.isSome = true ∧
    (cmdHandlerRun false cause).backgroundTasks = 0 ∧
    (cmdHandlerRun false cause).exitCallbackInvocations = [] := by
  exact ⟨rfl, rfl, rfl⟩

/-- Claim C8: Stop is idempotent on every service handler: on a
never-started or already-stopped handler it is a no-op producing no exit
callback (this includes the nil-guard of KubeletHandler.stop); two
successive Stop calls from any state leave the state fixed with the second
call producing no callback; and a double Stop on a running handler produces
exactly one exit callback in total. -/
theorem stop_idempotent (st : ProcState) :
    stopProcess ProcState.stopped = (ProcState.stopped, []) ∧
    stopProcess ProcState.notStarted = (ProcState.notStarted, []) ∧
    kubeletStop none = (none, []) ∧
    (stopProcess (stopProcess st).1).1 = (stopProcess st).1 ∧
    (stopProcess (stopProcess st).1).2 = [] ∧
    (stopProcess ProcState.running).2 ++
        (stopProcess (stopProcess ProcState.running).1).2 = [false] := by
  cases st <;> exact ⟨rfl, rfl, rfl, rfl, rfl, rfl⟩

/-- Claim C4, counterexample: the steady-state failure-threshold fatal fires
only after gracefulTerminationMode has been set (the checkService monitors
start after waitUntilNodeReady), and the exit hook registered in Run stops
handlers only while that flag is unset; so at this fatal no handler gets
Stop called: with all six handlers registered, the hook stops none of them
-- in particular the kube API server handler, an other registered handler,
is not stopped before termination, contrary to the claim. -/
theorem fatal_threshold_stops_nothing :
    gracefulAtFatal (FatalCondition.steadyStateThreshold "etcd") = true ∧
    exitHookStops (gracefulAtFatal (FatalCondition.steadyStateThreshold "etcd"))
        startOrder = [] ∧
    Service.kubeApiserver ∉
      exitHookStops (gracefulAtFatal (FatalCondition.steadyStateThreshold "etcd"))
        startOrder := by
  refine ⟨rfl, rfl, ?_⟩
  decide

/-- Claim C4, amended: every fatal condition logs a diagnostic naming the
failing service and the reason; the fatal conditions that fire during the
startup phase (construction failure, launch failure, health-gate exhaustion,
unexpected exit during startup) occur while gracefulTerminationMode is
unset, and for those the registered exit hook invokes Stop on every managed
service handler registered so far before termination; the steady-state
failure-threshold fatal is the one fatal that fires after the flag is set,
and for it the exit hook stops no handlers. -/
theorem fatal_conditions_diagnostic_and_stops (c : FatalCondition)
    (registered : List Service) :
    fatalServiceName c ∈ fatalDiagnostic c ∧
    (gracefulAtFatal c = false →
      exitHookStops (gracefulAtFatal c) registered = registered) ∧
    (gracefulAtFatal c = true →
      exitHookStops (gracefulAtFatal c) registered = []) ∧
    (gracefulAtFatal c = true ↔
      ∃ n, c = FatalCondition.steadyStateThreshold n) := by
  refine ⟨?_, ?_, ?_, ?_⟩
  · cases c <;> simp [fatalServiceName, fatalDiagnostic]
  · intro h
    simp [exitHookStops, h]
  · intro h
    simp [exitHookStops, h]
  · cases c with
    | constructorFailure n => simp [gracefulAtFatal]
    | launchFailure n => simp [gracefulAtFatal]
    | healthGateExhaustion n => simp [gracefulAtFatal]
    | startupUnexpectedExit n => simp [gracefulAtFatal]
    | steadyStateThreshold n => exact ⟨fun _ => ⟨n, rfl⟩, fun _ => rfl⟩

/-- Claim C4, witness: a launch failure of the scheduler during startup
stops every handler registered so far, and its diagnostic names the
scheduler. -/
theorem fatal_conditions_diagnostic_and_stops_witness :
    exitHookStops (gracefulAtFatal (FatalCondition.launchFailure "kube-scheduler"))
        [Service.etcd, Service.kubeApiserver, Service.kubeControllerManager] =
      [Service.etcd, Service.kubeApiserver, Service.kubeControllerManager] ∧
    fatalServiceName (FatalCondition.launchFailure "kube-scheduler") ∈
      fatalDiagnostic (FatalCondition.launchFailure "kube-scheduler") := by
  constructor
  · exact (fatal_conditions_diagnostic_and_stops
      (FatalCondition.launchFailure "kube-scheduler")
      [Service.etcd, Service.kubeApiserver,
        Service.kubeControllerManager]).2.1 rfl
  · exact (fatal_conditions_diagnostic_and_stops
      (FatalCondition.launchFailure "kube-scheduler") []).1
